import Mathlib

/-!
Shallow embedding of the Grace build-orchestration scripts, `build.py` and
`install.py`.  Each script's observable behaviour is modelled as a trace of
effects — creation of the shared `build` output directory, `os.system`
invocations with their exact command strings, and console prints — together
with the `ValueError` raised on an invalid configuration selector.  The
`os.system` exit statuses are supplied by an oracle `status : Nat → Int`
(status of the n-th invocation); `build.py` discards every status, exactly
as the source does, while `install.py` consults the status of its second
invocation to decide whether to print the post-install guidance.
-/

namespace Grace

/-- One observable effect of running a script: creating the `build`
directory, invoking `os.system` with a command string, or printing a line. -/
inductive Effect where
  | mkdirBuild : Effect
  | run : String → Effect
  | print : String → Effect
deriving DecidableEq, Repr

/-- The CMake generate command issued by `build.py` for a configuration:
`cmake -DCMAKE_BUILD_TYPE={config} -S . -B build` (f-string rendered as
concatenation). -/
def genCmd (config : String) : String :=
  "cmake -DCMAKE_BUILD_TYPE=" ++ config ++ " -S . -B build"

/-- The CMake build command issued by `build.py`: on Windows (`os.name ==
'nt'`) no job flag; otherwise the suffix `-- -j` is appended; the target
`install` is selected inside this same command when `--install` was passed. -/
def buildCmd (os_nt : Bool) (install : Bool) (config : String) : String :=
  if os_nt then
    if install then "cmake --build build --config " ++ config ++ " --target install"
    else "cmake --build build --config " ++ config
  else
    if install then "cmake --build build --config " ++ config ++ " --target install -- -j"
    else "cmake --build build --config " ++ config ++ " -- -j"

/-- The block `build.py` runs for one configuration: an INFO line, the
generate command, an empty `print()`, another INFO line, and the build
command.  The `All` branch of the source writes these same five statements
out twice with the literal configurations `Debug` and `Release`. -/
def configSection (os_nt install : Bool) (config : String) : List Effect :=
  [Effect.print ("INFO: Generating CMake project for configuration: " ++ config ++ "\n"),
   Effect.run (genCmd config),
   Effect.print "",
   Effect.print ("INFO: Building configuration: " ++ config ++ "\n"),
   Effect.run (buildCmd os_nt install config)]

/-- The function `main(config, install)` of `build.py`.  `buildDirExists`
says whether the `build` directory was present at entry; `status` is the
exit-status oracle for the `os.system` calls, which `build.py` never reads.
The result is the effect trace paired with the `ValueError` message when the
selector matches neither `Release`, `Debug` nor `All`. -/
def build_main (buildDirExists : Bool) (config : String) (install : Bool)
    (os_nt : Bool) (status : Nat → Int) : List Effect × Option String :=
  let pre : List Effect := if buildDirExists then [] else [Effect.mkdirBuild]
  if config == "Release" || config == "Debug" then
    (pre ++ configSection os_nt install config, none)
  else if config == "All" then
    (pre ++ configSection os_nt install "Debug"
         ++ [Effect.print ""]
         ++ configSection os_nt install "Release", none)
  else
    (pre, some "config must match \"Debug\" or \"Release\" or \"All\"")

/-- The argument parser declared at the top of `build.py`: one required
positional `config` taking any string, and a presence-only `--install`
switch.  Any other shape of command line is rejected by `argparse`. -/
def parseArgs (argv : List String) : Option (String × Bool) :=
  match argv.filter (fun a => a ≠ "--install") with
  | [c] => some (c, argv.contains "--install")
  | _ => none

/-- The generate command of `install.py`.  In the source the build-target
define and the build-type define are concatenated with no separating space,
producing the single malformed token `-DGRACE_BUILD_TARGET=exe-DCMAKE_BUILD_TYPE=Release`. -/
def installGenCmd : String :=
  "cmake -DGRACE_BUILD_TARGET=exe-DCMAKE_BUILD_TYPE=Release -S . -B build"

/-- The combined build-and-install command of `install.py`; its exit status
is the only one the script inspects. -/
def installBuildCmd : String :=
  "cmake --build build --config Release --target install"

/-- The success banner `install.py` prints when the install command exits 0. -/
def successBanner : String :=
  "\n\n=== INSTALLATION SUCCESSFUL ===\n\n"

/-- Post-install guidance printed on Windows (`os.name == 'nt'`). -/
def ntGuidance : String :=
  "To use grace, add grace\x27s installation directory to your PATH and set the GRACE_STD_PATH environment variable. This is usually C:/Program Files (x86)/grace/bin and C:/Program Files (x86)/grace/std, but check the above log to see if it was different."

/-- Post-install guidance printed on POSIX-like systems. -/
def posixGuidance : String :=
  "To use grace, set the GRACE_STD_PATH environment variable in your shell config. This will be /usr/local/share/grace/std"

/-- The top-level script of `install.py`: ensure the `build` directory,
print and run the generate command (status discarded), print and run the
combined build-and-install command, and — only when that command's exit
status (`status 1`) is 0 — print the success banner and the platform's
guidance text. -/
def install_main (buildDirExists : Bool) (os_nt : Bool) (status : Nat → Int) :
    List Effect :=
  (if buildDirExists then [] else [Effect.mkdirBuild]) ++
  [Effect.print "INFO: Generating CMake project\n",
   Effect.run installGenCmd,
   Effect.print "",
   Effect.print "INFO: Building configuration\n",
   Effect.run installBuildCmd] ++
  (if status 1 = 0 then
     [Effect.print successBanner,
      Effect.print (if os_nt then ntGuidance else posixGuidance)]
   else [])

/-- The ordered backend command strings (`os.system` invocations) of a trace. -/
def runsOf (es : List Effect) : List String :=
  es.filterMap fun e =>
    match e with
    | Effect.run c => some c
    | _ => none

/-- The printed lines of a trace. -/
def printsOf (es : List Effect) : List String :=
  es.filterMap fun e =>
    match e with
    | Effect.print s => some s
    | _ => none

/-- The configurations of the generate commands of a trace, in order: the
realised configuration plan. -/
def planOf (es : List Effect) : List String :=
  es.filterMap fun e =>
    match e with
    | Effect.run c =>
        if c = genCmd "Debug" then some "Debug"
        else if c = genCmd "Release" then some "Release"
        else none
    | _ => none

/-- Auxiliary scan for `hasSub`: does `p` occur as a prefix of some suffix? -/
def hasSubAux (p : List Char) : List Char → Bool
  | [] => p.isPrefixOf []
  | c :: cs => p.isPrefixOf (c :: cs) || hasSubAux p cs

/-- Whether `pat` occurs as a contiguous substring of `s`. -/
def hasSub (pat s : String) : Bool :=
  hasSubAux pat.data s.data

/-- Whether a command string carries the POSIX job-parallelism suffix. -/
def hasJobFlag (cmd : String) : Bool :=
  hasSub " -- -j" cmd

/-- Whether a command string selects the install target. -/
def hasInstallTarget (cmd : String) : Bool :=
  hasSub "--target install" cmd

/-- Whether a command string is a build-phase invocation of the backend. -/
def isBuildPhase (cmd : String) : Bool :=
  hasSub "cmake --build" cmd

/-- The orchestrator's own process exit status: 0 on a normal return, 1 when
the `ValueError` escapes `main` (an uncaught Python exception terminates the
interpreter with a nonzero status). -/
def exitCodeOf (r : List Effect × Option String) : Nat :=
  match r.2 with
  | none => 0
  | some _ => 1

set_option maxRecDepth 16384

/-- `build.py` discards every `os.system` exit status, so its whole result
is unchanged when the status oracle is replaced by the constant 0. -/
theorem build_main_status_irrel (d : Bool) (c : String) (i o : Bool)
    (σ : Nat → Int) :
    build_main d c i o σ = build_main d c i o (fun _ => 0) := rfl

/-- C1 counterexample: with install requested and the Generate call (status
index 0) returning the nonzero status 1, `install.py` still executes the
install-selecting command and still prints the success banner and guidance
(the reporter), and `build.py` still issues its install-selecting build
command — the claim that a nonzero Generate status suppresses the Install
phase and the reporter is false on the code. -/
theorem claim1_cex :
    (fun n => if n = 0 then (1 : Int) else 0) 0 ≠ 0 ∧
    installBuildCmd ∈
      runsOf (install_main true false (fun n => if n = 0 then (1 : Int) else 0)) ∧
    successBanner ∈
      printsOf (install_main true false (fun n => if n = 0 then (1 : Int) else 0)) ∧
    posixGuidance ∈
      printsOf (install_main true false (fun n => if n = 0 then (1 : Int) else 0)) ∧
    hasInstallTarget (buildCmd false true "Release") = true ∧
    buildCmd false true "Release" ∈
      runsOf (build_main true "Release" true false
        (fun n => if n = 0 then (1 : Int) else 0)).1 := by
  decide

/-- C1 (amended): exit statuses of earlier phases are ignored — the
install-executing command of `install.py` always runs, regardless of the
Generate status; the reporter (success banner and guidance) is suppressed
exactly when the install command itself exits nonzero. -/
theorem claim1_install_skip (σ : Nat → Int) (os_nt dirEx : Bool) (h : σ 1 ≠ 0) :
    successBanner ∉ printsOf (install_main dirEx os_nt σ) ∧
    ntGuidance ∉ printsOf (install_main dirEx os_nt σ) ∧
    posixGuidance ∉ printsOf (install_main dirEx os_nt σ) ∧
    installBuildCmd ∈ runsOf (install_main dirEx os_nt σ) := by
  unfold install_main
  rw [if_neg h]
  cases dirEx <;> cases os_nt <;> decide

/-- Witness for C1 (amended) at the constant status 1. -/
theorem claim1_install_skip_witness :
    (fun _ : Nat => (1 : Int)) 1 ≠ 0 ∧
    (successBanner ∉ printsOf (install_main true true (fun _ => (1 : Int))) ∧
     ntGuidance ∉ printsOf (install_main true true (fun _ => (1 : Int))) ∧
     posixGuidance ∉ printsOf (install_main true true (fun _ => (1 : Int))) ∧
     installBuildCmd ∈ runsOf (install_main true true (fun _ => (1 : Int)))) :=
  ⟨by decide, claim1_install_skip (fun _ => (1 : Int)) true true (by decide)⟩

/-- C2: an invalid configuration selector makes `build.py` raise the
`ValueError` and issue zero backend subprocess invocations. -/
theorem claim2_validation (config : String)
    (h : config ≠ "Debug" ∧ config ≠ "Release" ∧ config ≠ "All")
    (install os_nt dirEx : Bool) (σ : Nat → Int) :
    runsOf (build_main dirEx config install os_nt σ).1 = [] ∧
    (build_main dirEx config install os_nt σ).2 =
      some "config must match \"Debug\" or \"Release\" or \"All\"" := by
  obtain ⟨h1, h2, h3⟩ := h
  cases dirEx <;> simp [build_main, runsOf, h1, h2, h3]

/-- Witness for C2 at the invalid selector Foo. -/
theorem claim2_validation_witness :
    ("Foo" ≠ "Debug" ∧ "Foo" ≠ "Release" ∧ "Foo" ≠ "All") ∧
    (runsOf (build_main false "Foo" true true (fun _ => 0)).1 = [] ∧
     (build_main false "Foo" true true (fun _ => 0)).2 =
       some "config must match \"Debug\" or \"Release\" or \"All\"") :=
  ⟨by decide, claim2_validation "Foo" (by decide) true true false (fun _ => 0)⟩

/-- C3: the realised configuration plan is a deterministic function of the
selector — Debug yields [Debug], Release yields [Release], All yields
[Debug, Release] in that order — on every platform, install intent and
prior directory state; the All plan has no duplicates and is nonempty. -/
theorem claim3_plan (install os_nt dirEx : Bool) (σ : Nat → Int) :
    planOf (build_main dirEx "Debug" install os_nt σ).1 = ["Debug"] ∧
    planOf (build_main dirEx "Release" install os_nt σ).1 = ["Release"] ∧
    planOf (build_main dirEx "All" install os_nt σ).1 = ["Debug", "Release"] ∧
    (planOf (build_main dirEx "All" install os_nt σ).1).Nodup ∧
    planOf (build_main dirEx "All" install os_nt σ).1 ≠ [] := by
  simp only [build_main_status_irrel]
  cases install <;> cases os_nt <;> cases dirEx <;> decide

/-- C4: for every valid selector, every build-phase command `build.py`
issues carries the job-parallelism suffix on POSIX-like platforms
(`os.name ≠ 'nt'`) and never carries it on Windows. -/
theorem claim4_jobflag (config : String)
    (h : config = "Debug" ∨ config = "Release" ∨ config = "All")
    (install dirEx : Bool) (σ : Nat → Int) :
    (∀ c ∈ runsOf (build_main dirEx config install false σ).1,
        isBuildPhase c = true → hasJobFlag c = true) ∧
    (∀ c ∈ runsOf (build_main dirEx config install true σ).1,
        isBuildPhase c = true → hasJobFlag c = false) := by
  simp only [build_main_status_irrel]
  rcases h with rfl | rfl | rfl <;> cases install <;> cases dirEx <;> decide

/-- Witness for C4 at the selector All with install requested. -/
theorem claim4_jobflag_witness :
    ("All" = "Debug" ∨ "All" = "Release" ∨ "All" = "All") ∧
    ((∀ c ∈ runsOf (build_main true "All" true false (fun _ => 0)).1,
        isBuildPhase c = true → hasJobFlag c = true) ∧
     (∀ c ∈ runsOf (build_main true "All" true true (fun _ => 0)).1,
        isBuildPhase c = true → hasJobFlag c = false)) :=
  ⟨by decide, claim4_jobflag "All" (by decide) true true (fun _ => 0)⟩

/-- C5 counterexample: the CLI of `build.py` has no build-target positional —
giving both a target kind and a selector is rejected by the parser, the
string exe is rejected by `main` with the `ValueError` and zero backend
invocations, the Generate command of `build.py` carries no build-target
selector at all, and in `install.py` the build-target define is fused to the
build-type define with no separating space. -/
theorem claim5_cex :
    parseArgs ["exe", "Release"] = none ∧
    (build_main true "exe" false false (fun _ => 0)).2 =
      some "config must match \"Debug\" or \"Release\" or \"All\"" ∧
    runsOf (build_main true "exe" false false (fun _ => 0)).1 = [] ∧
    hasSub "GRACE_BUILD_TARGET" (genCmd "Release") = false ∧
    hasSub "-DGRACE_BUILD_TARGET=exe " installGenCmd = false ∧
    hasSub "-DGRACE_BUILD_TARGET=exe-DCMAKE_BUILD_TYPE=Release" installGenCmd = true := by
  decide

/-- C5 (amended): the CLI accepts a single positional configuration selector
(any string at parse time) plus the presence switch, and no build-target
positional; the Generate command of `build.py` passes only the
build-configuration selector, and only `install.py` mentions the target kind
exe, concatenated without a separator into the configuration define. -/
theorem claim5_cli (σ : Nat → Int) (install dirEx os_nt : Bool) :
    parseArgs ["banana"] = some ("banana", false) ∧
    parseArgs ["Release", "--install"] = some ("Release", true) ∧
    parseArgs ["exe", "Release"] = none ∧
    runsOf (build_main dirEx "Release" install os_nt σ).1 =
      [genCmd "Release", buildCmd os_nt install "Release"] ∧
    hasSub "exe" (genCmd "Release") = false ∧
    hasSub "dll" (genCmd "Release") = false ∧
    hasSub "=exe-DCMAKE_BUILD_TYPE=Release" installGenCmd = true := by
  simp only [build_main_status_irrel]
  cases dirEx <;> cases install <;> cases os_nt <;> decide

/-- C6 counterexample: with selector All and install requested on a
POSIX-like platform, `build.py` issues exactly four commands — Generate and
Build (carrying the install target) per configuration — not the claimed
three commands per configuration; no separate Install command exists. -/
theorem claim6_cex :
    runsOf (build_main true "All" true false (fun _ => 0)).1 =
      [genCmd "Debug", buildCmd false true "Debug",
       genCmd "Release", buildCmd false true "Release"] ∧
    (runsOf (build_main true "All" true false (fun _ => 0)).1).length = 4 ∧
    ¬ (runsOf (build_main true "All" true false (fun _ => 0)).1).length = 6 ∧
    hasInstallTarget (buildCmd false true "Debug") = true := by
  decide

/-- C6 (amended): Release with install=false on POSIX yields exactly the two
commands Generate then Build, both referencing Release, with no install
target; All with install=true yields per configuration (Debug before
Release) exactly two commands — Generate, then Build with the install
target fused into the build invocation — and no separate Install command. -/
theorem claim6_commands (σ : Nat → Int) (dirEx os_nt : Bool) :
    runsOf (build_main dirEx "Release" false false σ).1 =
      ["cmake -DCMAKE_BUILD_TYPE=Release -S . -B build",
       "cmake --build build --config Release -- -j"] ∧
    hasInstallTarget "cmake --build build --config Release -- -j" = false ∧
    hasSub "Release" "cmake -DCMAKE_BUILD_TYPE=Release -S . -B build" = true ∧
    hasSub "Release" "cmake --build build --config Release -- -j" = true ∧
    runsOf (build_main dirEx "All" true os_nt σ).1 =
      [genCmd "Debug", buildCmd os_nt true "Debug",
       genCmd "Release", buildCmd os_nt true "Release"] ∧
    hasInstallTarget (buildCmd os_nt true "Debug") = true ∧
    hasInstallTarget (buildCmd os_nt true "Release") = true := by
  simp only [build_main_status_irrel]
  cases dirEx <;> cases os_nt <;> decide

/-- C7: the printed output of `install.py` is its three fixed lines,
followed by the success banner and the platform guidance exactly when the
install command's exit status is 0; the POSIX guidance names the
GRACE_STD_PATH variable and the shell config, and the Windows guidance
names PATH, GRACE_STD_PATH, and defers to the log when the default install
directory was overridden. -/
theorem claim7_reporter (σ : Nat → Int) (os_nt dirEx : Bool) :
    printsOf (install_main dirEx os_nt σ) =
      ["INFO: Generating CMake project\n", "", "INFO: Building configuration\n"] ++
        (if σ 1 = 0 then
          [successBanner, if os_nt then ntGuidance else posixGuidance]
         else []) ∧
    hasSub "GRACE_STD_PATH" posixGuidance = true ∧
    hasSub "shell config" posixGuidance = true ∧
    hasSub "PATH" ntGuidance = true ∧
    hasSub "GRACE_STD_PATH" ntGuidance = true ∧
    hasSub "check the above log to see if it was different" ntGuidance = true := by
  refine ⟨?_, by decide, by decide, by decide, by decide, by decide⟩
  unfold install_main
  rcases eq_or_ne (σ 1) 0 with hσ | hσ
  · rw [if_pos hσ, if_pos hσ]
    cases dirEx <;> cases os_nt <;> decide
  · rw [if_neg hσ, if_neg hσ]
    cases dirEx <;> decide

/-- C8: the exit status of `build.py` is independent of every backend
subprocess status and is zero exactly when the selector is valid — backend
failures are never propagated as the orchestrator's own exit code. -/
theorem claim8_exit (config : String) (install os_nt dirEx : Bool)
    (σ σ' : Nat → Int) :
    exitCodeOf (build_main dirEx config install os_nt σ) =
      exitCodeOf (build_main dirEx config install os_nt σ') ∧
    (exitCodeOf (build_main dirEx config install os_nt σ) = 0 ↔
      config = "Release" ∨ config = "Debug" ∨ config = "All") := by
  refine ⟨rfl, ?_⟩
  by_cases h1 : config = "Release" <;> by_cases h2 : config = "Debug" <;>
    by_cases h3 : config = "All" <;>
    simp [build_main, exitCodeOf, beq_iff_eq, h1, h2, h3]

/-- C9: on an invalid selector with the `build` directory absent, `main`
still creates the directory — the whole trace is exactly the directory
creation — before raising the `ValueError`. -/
theorem claim9_mkdir (config : String)
    (h : config ≠ "Debug" ∧ config ≠ "Release" ∧ config ≠ "All")
    (install os_nt : Bool) (σ : Nat → Int) :
    (build_main false config install os_nt σ).1 = [Effect.mkdirBuild] ∧
    (build_main false config install os_nt σ).2 =
      some "config must match \"Debug\" or \"Release\" or \"All\"" := by
  obtain ⟨h1, h2, h3⟩ := h
  simp [build_main, h1, h2, h3]

/-- Witness for C9 at the invalid selector 42. -/
theorem claim9_mkdir_witness :
    ("42" ≠ "Debug" ∧ "42" ≠ "Release" ∧ "42" ≠ "All") ∧
    ((build_main false "42" false false (fun _ => 0)).1 = [Effect.mkdirBuild] ∧
     (build_main false "42" false false (fun _ => 0)).2 =
       some "config must match \"Debug\" or \"Release\" or \"All\"") :=
  ⟨by decide, claim9_mkdir "42" (by decide) false false (fun _ => 0)⟩

/-- C10: the ordered sequence of backend command strings is a function of
the selector, the install flag and the platform family alone — two runs
agreeing on those three inputs issue identical command sequences, whatever
the prior directory state and the subprocess statuses. -/
theorem claim10_determinism (config : String) (install os_nt dirEx dirEx' : Bool)
    (σ σ' : Nat → Int) :
    runsOf (build_main dirEx config install os_nt σ).1 =
      runsOf (build_main dirEx' config install os_nt σ').1 := by
  have key : ∀ (d : Bool) (σ0 : Nat → Int),
      runsOf (build_main d config install os_nt σ0).1 =
        runsOf (build_main true config install os_nt σ0).1 := by
    intro d σ0
    unfold build_main
    by_cases h1 : (config == "Release" || config == "Debug") = true
    · rw [if_pos h1, if_pos h1]
      cases d <;> simp [runsOf, configSection]
    · rw [if_neg h1, if_neg h1]
      by_cases h2 : (config == "All") = true
      · rw [if_pos h2, if_pos h2]
        cases d <;> simp [runsOf, configSection]
      · rw [if_neg h2, if_neg h2]
        cases d <;> simp [runsOf]
  exact (key dirEx σ).trans (key dirEx' σ').symm

end Grace
